import Mathlib

/-!
Shallow embedding of `btgym/research/model_based/datafeed/bivariate.py`.

The file under verification is orchestration glue: it wraps an external
bivariate time-series model (`BivariateTSModel`, not part of the sources)
into generator functions, reshapes the model's numeric output into
OHLC-style dataframes, and packages everything into sampler / dataset
objects of the btgym data-pipeline framework.

Modelling conventions:
* numpy float arrays become lists of rationals (`Row := List ℚ`); the
  generator output of shape `[1, 2, num_points]` becomes a pair of rows
  (`Traj`), the two rows being `data[0, 0, :]` and `data[0, 1, :]`;
* the external model entry points (`BivariateTSModel.generate_bivariate_trajectory_fn`,
  `BivariateTSModel.get_random_state`) and `np.exp` are uninterpreted: they are
  carried in an `Externals` record and universally quantified in theorems;
* python dictionaries with a fixed key set become structures; fallible
  dictionary lookups become `Option`;
* the mutation `self.sample_num += 1` in `sample` is modelled by returning
  the updated parent next to the produced sample.
-/

namespace BtGym

/-- A numeric data row (one line of a numpy array), as exact rationals. -/
abbrev Row := List ℚ

/-- Generator output of shape `[1, 2, num_points]`: row `data[0, 0, :]`
and row `data[0, 1, :]`. -/
abbrev Traj := Row × Row

/-- Round a rational to the nearest integer, ties to even — the rounding
rule used by `np.around`. -/
def roundHalfToEven (x : ℚ) : ℤ :=
  let f : ℤ := Int.floor x
  let r : ℚ := x - (f : ℚ)
  if r < 1 / 2 then f
  else if 1 / 2 < r then f + 1
  else if 2 ∣ f then f else f + 1

/-- `np.around(x, decimals = d)` on a single value: round to `d` decimal
places, ties to even. -/
def npAround (d : ℕ) (x : ℚ) : ℚ :=
  (roundHalfToEven (x * 10 ^ d) : ℚ) / 10 ^ d

/-- `np.around` applied elementwise to a row. -/
def npAroundRow (d : ℕ) (row : Row) : Row :=
  row.map (npAround d)

/-- `np.around` applied elementwise to a `[1, 2, n]` trajectory. -/
def npAroundTraj (d : ℕ) (t : Traj) : Traj :=
  (npAroundRow d t.1, npAroundRow d t.2)

/-- Modelled from the spec: the observation-process parameter block of the
external model state; the file under verification reads exactly the fields
`mu`, `log_theta`, `log_sigma` of `state.s.process.observation`. -/
structure ObservationState where
  mu : ℚ
  log_theta : ℚ
  log_sigma : ℚ
deriving DecidableEq

/-- Modelled from the spec: the `process` component of one leg of the
external model state. -/
structure ProcessState where
  observation : ObservationState
deriving DecidableEq

/-- Modelled from the spec: one leg (`state.s`) of the external bivariate
model state. -/
structure PairModelState where
  process : ProcessState
deriving DecidableEq

/-- Modelled from the spec: `BivariateTSModelState`, the state of the
external `BivariateTSModel`; only the `s` leg is read by this file. -/
structure BivariateTSModelState where
  s : PairModelState
deriving DecidableEq

/-- Opaque payload standing for the keyword-argument dictionary passed to
`BivariateTSModel.get_random_state` (`generator_parameters_config` /
`model_params`). -/
abbrev Config := List (String × ℚ)

/-- Tag standing for the reconstruction routine `BivariateTSModel.u_recon`
passed through to the external trajectory generator. -/
def u_recon : ℕ := 0

/-- Modelled from the spec: the external entry points this file delegates
to — `BivariateTSModel.generate_bivariate_trajectory_fn` (arguments:
batch size, number of points, state, restore flag, reconstruction routine;
returns an auxiliary trajectory and the data trajectory),
`BivariateTSModel.get_random_state`, and `np.exp`. They are uninterpreted
here and universally quantified in the theorems. -/
structure Externals where
  generate_bivariate_trajectory_fn :
    ℕ → ℕ → BivariateTSModelState → Bool → ℕ → Traj × Traj
  get_random_state : Config → BivariateTSModelState
  npExp : ℚ → ℚ

/-- `bivariate_generator_fn(num_points, state, keep_decimals, **kwargs)`:
draw one batch of `num_points` points from the external model and round
elementwise. -/
def bivariate_generator_fn (E : Externals) (num_points : ℕ)
    (state : BivariateTSModelState) (keep_decimals : ℕ) : Traj :=
  let x := (E.generate_bivariate_trajectory_fn 1 num_points state true u_recon).2
  npAroundTraj keep_decimals x

/-- `bivariate_generator_fn` called without `keep_decimals`, which defaults
to `6` in the source. -/
def bivariate_generator_fn_default (E : Externals) (num_points : ℕ)
    (state : BivariateTSModelState) : Traj :=
  bivariate_generator_fn E num_points state 6

/-- The dictionary returned by `bivariate_random_state_fn`: the sampled
model state plus auxiliary summary fields. -/
structure ParamsDict where
  state : BivariateTSModelState
  ou_mu : ℚ
  ou_lambda : ℚ
  ou_sigma : ℚ
  x0 : ℚ
deriving DecidableEq

/-- `bivariate_random_state_fn(*args, **kwargs)`: sample a random model
state and expose observation-process parameters alongside it. -/
def bivariate_random_state_fn (E : Externals) (cfg : Config) : ParamsDict :=
  let state := E.get_random_state cfg
  { state := state
    ou_mu := state.s.process.observation.mu
    ou_lambda := E.npExp state.s.process.observation.log_theta
    ou_sigma := E.npExp state.s.process.observation.log_sigma
    x0 := state.s.process.observation.mu }

/-- A pandas dataframe as built by `generate_data`: an index and a partial
map from column names to value rows (`none` models a `KeyError`). -/
structure DataFrame where
  index : List ℤ
  cols : String → Option Row

/-- Modelled from the spec: one data stream held in the `data` dictionary
of the base pair-generator; the file under verification reads its
`episode_num_records`, `train_index`, `test_index`, `filename` attributes
and assigns its `data` attribute. -/
structure DataStream where
  episode_num_records : ℕ
  train_index : List ℤ
  test_index : List ℤ
  filename : Option String
  data : Option DataFrame

/-- The metadata dictionary attached to generator instances: the keys read
or written by this file. -/
structure Metadata where
  type : Option ℕ
  sample_num : ℕ
  parent_sample_type : Option ℕ
  parent_sample_num : ℕ
  first_row : ℕ
  last_row : ℕ
  generator : Option ParamsDict

/-- Modelled from the spec: the `nested_kwargs` the base class keeps for
constructing sub-instances — the stream templates and the sampling flag the
child is created with. -/
structure NestedKwargs where
  stream1 : DataStream
  stream2 : DataStream
  get_new_sample : Bool

/-- `SimpleBivariateGenerator` instance state: its own attributes plus the
attributes inherited from `BasePairDataGenerator` that this file reads or
writes (`a1_name`/`a2_name` name the two streams held in the `data`
dictionary, modelled as the explicit fields `stream1`/`stream2`). -/
structure SimpleBivariateGenerator where
  name : String
  data_names : List String
  a1_name : String
  a2_name : String
  names : List String
  metadata : Metadata
  sample_num : ℕ
  get_new_sample : Bool
  generator_parameters_config : Config
  generator_fn : ℕ → ParamsDict → Traj
  generator_parameters_fn : Config → ParamsDict
  stream1 : DataStream
  stream2 : DataStream
  filename : List (String × Option String)
  nested_kwargs : NestedKwargs

/-- The `columns_map` dictionary set in `SimpleBivariateGenerator.__init__`:
dataframe column name to aggregate name. -/
def columns_map : String → Option String
  | "open" => some "mean"
  | "high" => some "maximum"
  | "low" => some "minimum"
  | "close" => some "last"
  | "bid" => some "minimum"
  | "ask" => some "maximum"
  | "mid" => some "mean"
  | _ => none

/-- The `p1_dict` / `p2_dict` dictionaries of `generate_data`: every
aggregate name is bound to the same underlying data row. -/
def p_dict (row : Row) : String → Option Row
  | "mean" => some row
  | "maximum" => some row
  | "minimum" => some row
  | "last" => some row
  | _ => none

/-- `SimpleBivariateGenerator.generate_data(generator_params, sample_type)`:
draw `[1, 2, episode_num_records]` data from `generator_fn` and map it to
two dataframes over the train index (`sample_type = 0`) or test index
(`sample_type` nonzero) of the first asset's stream. -/
def SimpleBivariateGenerator.generate_data (g : SimpleBivariateGenerator)
    (generator_params : ParamsDict) (sample_type : ℕ) : DataFrame × DataFrame :=
  let data := g.generator_fn g.stream1.episode_num_records generator_params
  let index := if sample_type ≠ 0 then g.stream1.test_index else g.stream1.train_index
  let df1 : DataFrame :=
    { index := index
      cols := fun n => if n ∈ g.names then (columns_map n).bind (p_dict data.1) else none }
  let df2 : DataFrame :=
    { index := index
      cols := fun n => if n ∈ g.names then (columns_map n).bind (p_dict data.2) else none }
  (df1, df2)

/-- The sample-type override at the top of `sample`: a non-`None`
`metadata['type']` replaces a differing requested `sample_type`. -/
def effectiveSampleType (g : SimpleBivariateGenerator) (sample_type : ℕ) : ℕ :=
  match g.metadata.type with
  | some t => if t ≠ sample_type then t else sample_type
  | none => sample_type

/-- `SimpleBivariateGenerator.sample(sample_type)`: build a sub-instance,
fill it with freshly generated dataframes (when `get_new_sample` is set)
and metadata, and bump the parent's `sample_num`. Returns the sample
together with the updated parent (modelling `self.sample_num += 1`). -/
def SimpleBivariateGenerator.sample (g : SimpleBivariateGenerator) (E : Externals)
    (sample_type : ℕ) : SimpleBivariateGenerator × SimpleBivariateGenerator :=
  let st := effectiveSampleType g sample_type
  let params := g.generator_parameters_fn g.generator_parameters_config
  let dfs := g.generate_data params st
  let data1 : Option DataFrame := if g.get_new_sample then some dfs.1 else none
  let data2 : Option DataFrame := if g.get_new_sample then some dfs.2 else none
  let md : Metadata :=
    { generator := if g.get_new_sample then some params else none
      type := some st
      sample_num := g.sample_num
      parent_sample_type := g.metadata.type
      parent_sample_num := g.sample_num
      first_row := 0
      last_row := g.stream1.episode_num_records }
  let child : SimpleBivariateGenerator :=
    { name := "sub_" ++ g.name
      data_names := g.data_names
      a1_name := g.a1_name
      a2_name := g.a2_name
      names := g.names
      metadata := md
      sample_num := 0
      get_new_sample := g.nested_kwargs.get_new_sample
      generator_parameters_config := g.generator_parameters_config
      generator_fn := fun n p => bivariate_generator_fn E n p.state 6
      generator_parameters_fn := bivariate_random_state_fn E
      stream1 := { g.nested_kwargs.stream1 with data := data1 }
      stream2 := { g.nested_kwargs.stream2 with data := data2 }
      filename := [(g.a1_name, g.stream1.filename), (g.a2_name, g.stream2.filename)]
      nested_kwargs := g.nested_kwargs }
  (child, { g with sample_num := g.sample_num + 1 })

/-- A python value passed as `assets_filenames`: either a dictionary
(its key/value pairs, keys distinct) or some non-dictionary value. -/
inductive PyObj where
  | dict (entries : List (String × String))
  | nonDict (desc : String)
deriving DecidableEq

/-- Class references passed to the combined-dataset superclass. -/
inductive ClassRef where
  | simpleBivariateGenerator
  | btgymMultiData
  | btgymDataset2
deriving DecidableEq

/-- An episode-duration dictionary (`days`, `hours`, `minutes`), optional. -/
abbrev Duration := Option (ℕ × ℕ × ℕ)

/-- The `train_data_config` dictionary built by `BivariateDataSet.__init__`. -/
structure TrainDataConfig where
  data_names : List String
  generator_parameters_config : Config
  episode_duration : Duration
deriving DecidableEq

/-- The `test_data_config` dictionary built by `BivariateDataSet.__init__`. -/
structure TestDataConfig where
  data_class_ref : ClassRef
  data_config : List (String × String)
  episode_duration : Duration
deriving DecidableEq

/-- Modelled from the spec: `BaseCombinedDataSet.__init__` is outside the
sources; it is modelled as recording the configuration it receives — train
data to be produced by `train_class_ref` under `train_data_config`, test
data to be read by `test_class_ref` under `test_data_config`. -/
structure BaseCombinedDataSetArgs where
  train_data_config : TrainDataConfig
  test_data_config : TestDataConfig
  train_class_ref : ClassRef
  test_class_ref : ClassRef
  name : String
deriving DecidableEq

/-- `BivariateDataSet.__init__`: assert `assets_filenames` is a two-key
dictionary, then configure the superclass with a synthetic train source
and a historical test source. `Except.error` models a raised
`AssertionError`. -/
def BivariateDataSet_init (assets_filenames : PyObj) (model_params : Config)
    (train_episode_duration test_episode_duration : Duration)
    (name : String) : Except String BaseCombinedDataSetArgs :=
  match assets_filenames with
  | .nonDict d =>
      .error ("Expected assets_filenames type dict, got " ++ d)
  | .dict entries =>
      let data_names := entries.map Prod.fst
      if data_names.length ≠ 2 then
        .error "Expected exactly two assets"
      else
        .ok
          { train_data_config :=
              { data_names := data_names
                generator_parameters_config := model_params
                episode_duration := train_episode_duration }
            test_data_config :=
              { data_class_ref := .btgymDataset2
                data_config := entries
                episode_duration := test_episode_duration }
            train_class_ref := .simpleBivariateGenerator
            test_class_ref := .btgymMultiData
            name := name }

/-- The property the specification states for `sample`: parameters are
drawn via `generator_parameters_fn(generator_parameters_config)`,
`generate_data` is called with them, and the returned instance wraps the
two resulting dataframes as its data (recording the parameters in its
metadata). Stated from the spec's words, to be compared with the code. -/
def sampleDrawsAndWraps (E : Externals) (g : SimpleBivariateGenerator)
    (sample_type : ℕ) : Prop :=
  let params := g.generator_parameters_fn g.generator_parameters_config
  let dfs := g.generate_data params (effectiveSampleType g sample_type)
  (g.sample E sample_type).1.stream1.data = some dfs.1 ∧
  (g.sample E sample_type).1.stream2.data = some dfs.2 ∧
  (g.sample E sample_type).1.metadata.generator = some params

/-- Any `columns_map` value names an aggregate that `p_dict` binds to the
underlying row itself. -/
theorem p_dict_of_columns_map (row : Row) {n agg : String}
    (h : columns_map n = some agg) : p_dict row agg = some row := by
  unfold columns_map at h
  split at h <;> try (injection h with h; subst h; rfl)
  exact Option.noConfusion h

/-- Concrete model state used to evaluate theorems on closed inputs. -/
def exState : BivariateTSModelState := ⟨⟨⟨⟨1, 2, 3⟩⟩⟩⟩

/-- Concrete instantiation of the external model entry points. -/
def exExternals : Externals where
  generate_bivariate_trajectory_fn := fun _ n _ _ _ =>
    (([], []), (List.replicate n 1, List.replicate n 2))
  get_random_state := fun _ => exState
  npExp := fun q => q + 1

/-- Concrete generator-parameter dictionary. -/
def exParams : ParamsDict := ⟨exState, 1, 2, 3, 1⟩

/-- Concrete data stream for the first asset. -/
def exStream1 : DataStream where
  episode_num_records := 3
  train_index := [0, 1, 2]
  test_index := [10, 11, 12]
  filename := some "f1.csv"
  data := none

/-- Concrete data stream for the second asset. -/
def exStream2 : DataStream :=
  { exStream1 with filename := some "f2.csv" }

/-- Concrete `SimpleBivariateGenerator` instance. -/
def exGen : SimpleBivariateGenerator where
  name := "BivariateGenerator"
  data_names := ["a", "b"]
  a1_name := "a"
  a2_name := "b"
  names := ["open", "high", "low", "close"]
  metadata := ⟨none, 0, none, 0, 0, 0, none⟩
  sample_num := 5
  get_new_sample := true
  generator_parameters_config := []
  generator_fn := fun n p => (List.replicate n p.x0, List.replicate n p.ou_mu)
  generator_parameters_fn := fun _ => exParams
  stream1 := exStream1
  stream2 := exStream2
  filename := []
  nested_kwargs := ⟨exStream1, exStream2, true⟩

/-- `exGen` with the `get_new_sample` flag cleared. -/
def exGenStale : SimpleBivariateGenerator :=
  { exGen with get_new_sample := false }

/-- `exGen` locked to test samples (`metadata['type'] = 1`). -/
def exGenTyped : SimpleBivariateGenerator :=
  { exGen with metadata := { exGen.metadata with type := some 1 } }

/-- C6: `bivariate_random_state_fn` returns a dictionary whose `state`
field is the state sampled by `get_random_state`, and whose auxiliary
fields satisfy `ou_mu = x0 = state.s.process.observation.mu`,
`ou_lambda = exp(state.s.process.observation.log_theta)` and
`ou_sigma = exp(state.s.process.observation.log_sigma)`. -/
theorem random_state_fn_exposes_observation_params (E : Externals) (cfg : Config) :
    (bivariate_random_state_fn E cfg).state = E.get_random_state cfg ∧
    (bivariate_random_state_fn E cfg).ou_mu
      = (E.get_random_state cfg).s.process.observation.mu ∧
    (bivariate_random_state_fn E cfg).x0
      = (E.get_random_state cfg).s.process.observation.mu ∧
    (bivariate_random_state_fn E cfg).ou_lambda
      = E.npExp (E.get_random_state cfg).s.process.observation.log_theta ∧
    (bivariate_random_state_fn E cfg).ou_sigma
      = E.npExp (E.get_random_state cfg).s.process.observation.log_sigma :=
  ⟨rfl, rfl, rfl, rfl, rfl⟩

/-- C7: `bivariate_generator_fn` returns exactly the trajectory produced by
`generate_bivariate_trajectory_fn` for one batch of `num_points` points,
rounded elementwise to `keep_decimals` decimal places (6 when not given),
preserving the shape `[1, 2, num_points]`. -/
theorem generator_fn_rounds_model_trajectory (E : Externals) (num_points : ℕ)
    (state : BivariateTSModelState) (keep_decimals : ℕ) :
    bivariate_generator_fn_default E num_points state
      = bivariate_generator_fn E num_points state 6 ∧
    bivariate_generator_fn E num_points state keep_decimals
      = npAroundTraj keep_decimals
          (E.generate_bivariate_trajectory_fn 1 num_points state true u_recon).2 ∧
    ((E.generate_bivariate_trajectory_fn 1 num_points state true u_recon).2.1.length
        = num_points →
      (bivariate_generator_fn E num_points state keep_decimals).1.length = num_points) ∧
    ((E.generate_bivariate_trajectory_fn 1 num_points state true u_recon).2.2.length
        = num_points →
      (bivariate_generator_fn E num_points state keep_decimals).2.length = num_points) := by
  refine ⟨rfl, rfl, ?_, ?_⟩ <;> intro h <;>
    simpa [bivariate_generator_fn, npAroundTraj, npAroundRow] using h

/-- Witness for C7 at a concrete external model: the hypotheses hold and the
rounded trajectory keeps its length. -/
theorem generator_fn_rounds_model_trajectory_witness :
    (exExternals.generate_bivariate_trajectory_fn 1 4 exState true u_recon).2.1.length = 4 ∧
    (bivariate_generator_fn exExternals 4 exState 6).1.length = 4 :=
  ⟨by decide,
    (generator_fn_rounds_model_trajectory exExternals 4 exState 6).2.2.1 (by decide)⟩

/-- Helper: any mapped column present in `names` is bound to the
corresponding generator-output row in both dataframes. -/
theorem generate_data_cols_eq_rows (g : SimpleBivariateGenerator)
    (params : ParamsDict) (sample_type : ℕ) (n agg : String)
    (hmap : columns_map n = some agg) (hmem : n ∈ g.names) :
    (g.generate_data params sample_type).1.cols n
      = some (g.generator_fn g.stream1.episode_num_records params).1 ∧
    (g.generate_data params sample_type).2.cols n
      = some (g.generator_fn g.stream1.episode_num_records params).2 := by
  unfold SimpleBivariateGenerator.generate_data
  simp only [if_pos hmem, hmap, Option.bind_some]
  exact ⟨p_dict_of_columns_map _ hmap, p_dict_of_columns_map _ hmap⟩

/-- C2: `generate_data` returns a pair of dataframes, the first built from
row `0` and the second from row `1` of the generator output shaped
`[1, 2, num_points]`, where `num_points` equals `episode_num_records` of
the first asset's data stream. -/
theorem generate_data_pairs_rows_into_dataframes (g : SimpleBivariateGenerator)
    (params : ParamsDict) (sample_type : ℕ) (n agg : String)
    (hmap : columns_map n = some agg) (hmem : n ∈ g.names) :
    (g.generate_data params sample_type).1.cols n
      = some (g.generator_fn g.stream1.episode_num_records params).1 ∧
    (g.generate_data params sample_type).2.cols n
      = some (g.generator_fn g.stream1.episode_num_records params).2 :=
  generate_data_cols_eq_rows g params sample_type n agg hmap hmem

/-- Witness for C2 on the concrete generator: the `open` column of each
dataframe is the corresponding generator-output row. -/
theorem generate_data_pairs_rows_into_dataframes_witness :
    columns_map "open" = some "mean" ∧ "open" ∈ exGen.names ∧
    (exGen.generate_data exParams 0).1.cols "open"
      = some (exGen.generator_fn exGen.stream1.episode_num_records exParams).1 ∧
    (exGen.generate_data exParams 0).2.cols "open"
      = some (exGen.generator_fn exGen.stream1.episode_num_records exParams).2 :=
  ⟨rfl, by decide,
    generate_data_pairs_rows_into_dataframes exGen exParams 0 "open" "mean" rfl (by decide)⟩

/-- C5: the dataframe index depends only on `sample_type` — train index of
the first asset for `sample_type = 0`, its test index for any nonzero
`sample_type` — while the column values are identical in both cases. -/
theorem generate_data_index_depends_only_on_sample_type
    (g : SimpleBivariateGenerator) (params : ParamsDict) :
    ((g.generate_data params 0).1.index = g.stream1.train_index ∧
      (g.generate_data params 0).2.index = g.stream1.train_index) ∧
    (∀ sample_type, sample_type ≠ 0 →
      (g.generate_data params sample_type).1.index = g.stream1.test_index ∧
      (g.generate_data params sample_type).2.index = g.stream1.test_index) ∧
    (∀ s t,
      (g.generate_data params s).1.cols = (g.generate_data params t).1.cols ∧
      (g.generate_data params s).2.cols = (g.generate_data params t).2.cols) := by
  refine ⟨⟨rfl, rfl⟩, ?_, fun s t => ⟨rfl, rfl⟩⟩
  intro sample_type h
  constructor <;> simp [SimpleBivariateGenerator.generate_data, h]

/-- Witness for C5: at `sample_type = 1` the concrete generator's dataframes
are indexed by the test index. -/
theorem generate_data_index_depends_only_on_sample_type_witness :
    (1 : ℕ) ≠ 0 ∧
    (exGen.generate_data exParams 1).1.index = exGen.stream1.test_index ∧
    (exGen.generate_data exParams 1).2.index = exGen.stream1.test_index :=
  ⟨by decide,
    (generate_data_index_depends_only_on_sample_type exGen exParams).2.1 1 (by decide)⟩

/-- C8: `columns_map` sends `open`/`mid` to `mean`, `high`/`ask` to
`maximum`, `low`/`bid` to `minimum` and `close` to `last`; all aggregates
are bound to the same array, so any two mapped columns present in
`self.names` carry identical value series in each returned dataframe. -/
theorem all_mapped_columns_carry_identical_series :
    (columns_map "open" = some "mean" ∧ columns_map "mid" = some "mean" ∧
      columns_map "high" = some "maximum" ∧ columns_map "ask" = some "maximum" ∧
      columns_map "low" = some "minimum" ∧ columns_map "bid" = some "minimum" ∧
      columns_map "close" = some "last") ∧
    ∀ (g : SimpleBivariateGenerator) (params : ParamsDict) (sample_type : ℕ)
      (n₁ n₂ agg₁ agg₂ : String),
      columns_map n₁ = some agg₁ → columns_map n₂ = some agg₂ →
      n₁ ∈ g.names → n₂ ∈ g.names →
      (g.generate_data params sample_type).1.cols n₁
          = (g.generate_data params sample_type).1.cols n₂ ∧
      (g.generate_data params sample_type).2.cols n₁
          = (g.generate_data params sample_type).2.cols n₂ := by
  refine ⟨⟨rfl, rfl, rfl, rfl, rfl, rfl, rfl⟩, ?_⟩
  intro g params sample_type n₁ n₂ agg₁ agg₂ h₁ h₂ m₁ m₂
  have e₁ := generate_data_cols_eq_rows g params sample_type n₁ agg₁ h₁ m₁
  have e₂ := generate_data_cols_eq_rows g params sample_type n₂ agg₂ h₂ m₂
  exact ⟨e₁.1.trans e₂.1.symm, e₁.2.trans e₂.2.symm⟩

/-- Witness for C8: on the concrete generator, `open` and `close` columns
coincide in both dataframes. -/
theorem all_mapped_columns_carry_identical_series_witness :
    (exGen.generate_data exParams 0).1.cols "open"
        = (exGen.generate_data exParams 0).1.cols "close" ∧
    (exGen.generate_data exParams 0).2.cols "open"
        = (exGen.generate_data exParams 0).2.cols "close" :=
  all_mapped_columns_carry_identical_series.2 exGen exParams 0 "open" "close"
    "mean" "last" rfl rfl (by decide) (by decide)

/-- C1 counterexample: on a generator whose `get_new_sample` flag is
cleared, `sample` draws no parameters and wraps no dataframes — its data
fields are `None` — so the claim as stated fails for this call. -/
theorem sample_without_new_sample_flag_draws_nothing :
    ¬ sampleDrawsAndWraps exExternals exGenStale 0 := by
  intro h
  exact Option.noConfusion h.1

/-- C1 (amended): whenever the generator's `get_new_sample` flag is set,
`sample` draws parameters via `generator_parameters_fn` with
`generator_parameters_config`, calls `generate_data` with them, and
returns a new instance wrapping the two resulting dataframes. -/
theorem sample_draws_params_and_wraps_data (E : Externals)
    (g : SimpleBivariateGenerator) (sample_type : ℕ)
    (h : g.get_new_sample = true) :
    sampleDrawsAndWraps E g sample_type := by
  unfold sampleDrawsAndWraps SimpleBivariateGenerator.sample
  simp [h]

/-- Witness for C1 (amended) on the concrete generator, whose
`get_new_sample` flag is set. -/
theorem sample_draws_params_and_wraps_data_witness :
    exGen.get_new_sample = true ∧ sampleDrawsAndWraps exExternals exGen 0 :=
  ⟨rfl, sample_draws_params_and_wraps_data exExternals exGen 0 rfl⟩

/-- C9: when the parent's `metadata['type']` is set, `sample` overrides any
differing requested `sample_type` with it, so the returned sample's
`metadata['type']` equals the parent's. -/
theorem sample_type_locked_to_parent_metadata (E : Externals)
    (g : SimpleBivariateGenerator) (sample_type t : ℕ)
    (h : g.metadata.type = some t) :
    ((g.sample E sample_type).1).metadata.type = some t := by
  unfold SimpleBivariateGenerator.sample effectiveSampleType
  rw [h]
  by_cases ht : t = sample_type <;> simp [ht]

/-- Witness for C9: the concrete test-locked generator returns a test-typed
sample even when a train sample is requested. -/
theorem sample_type_locked_to_parent_metadata_witness :
    exGenTyped.metadata.type = some 1 ∧
    ((exGenTyped.sample exExternals 0).1).metadata.type = some 1 :=
  ⟨rfl, sample_type_locked_to_parent_metadata exExternals exGenTyped 0 1 rfl⟩

/-- C10: `sample` increments the parent's `sample_num` by exactly one and
changes no other parent attribute; the sample's metadata records
`sample_num` and `parent_sample_num` equal to the parent's pre-call
`sample_num`, `first_row = 0` and `last_row` equal to the first asset's
`episode_num_records`. -/
theorem sample_bumps_only_sample_num (E : Externals)
    (g : SimpleBivariateGenerator) (sample_type : ℕ) :
    (g.sample E sample_type).2 = { g with sample_num := g.sample_num + 1 } ∧
    ((g.sample E sample_type).1).metadata.sample_num = g.sample_num ∧
    ((g.sample E sample_type).1).metadata.parent_sample_num = g.sample_num ∧
    ((g.sample E sample_type).1).metadata.first_row = 0 ∧
    ((g.sample E sample_type).1).metadata.last_row = g.stream1.episode_num_records :=
  ⟨rfl, rfl, rfl, rfl, rfl⟩

/-- C3: for a two-asset dictionary, `BivariateDataSet.__init__` configures
its superclass so that train data is produced by
`SimpleBivariateGenerator` driven by `model_params` while test data is
read from the named historical files via `BTgymMultiData` over
`BTgymDataset2`. -/
theorem dataset_init_configures_superclass (entries : List (String × String))
    (model_params : Config) (trd ted : Duration) (name : String)
    (h : entries.length = 2) :
    BivariateDataSet_init (.dict entries) model_params trd ted name =
      .ok
        { train_data_config :=
            { data_names := entries.map Prod.fst
              generator_parameters_config := model_params
              episode_duration := trd }
          test_data_config :=
            { data_class_ref := .btgymDataset2
              data_config := entries
              episode_duration := ted }
          train_class_ref := .simpleBivariateGenerator
          test_class_ref := .btgymMultiData
          name := name } := by
  unfold BivariateDataSet_init
  simp [h]

/-- Witness for C3 at a concrete two-asset dictionary. -/
theorem dataset_init_configures_superclass_witness :
    ([("a", "f1.csv"), ("b", "f2.csv")] : List (String × String)).length = 2 ∧
    BivariateDataSet_init (.dict [("a", "f1.csv"), ("b", "f2.csv")]) [] none none "ds" =
      .ok
        { train_data_config :=
            { data_names := ["a", "b"]
              generator_parameters_config := []
              episode_duration := none }
          test_data_config :=
            { data_class_ref := .btgymDataset2
              data_config := [("a", "f1.csv"), ("b", "f2.csv")]
              episode_duration := none }
          train_class_ref := .simpleBivariateGenerator
          test_class_ref := .btgymMultiData
          name := "ds" } :=
  ⟨rfl, dataset_init_configures_superclass [("a", "f1.csv"), ("b", "f2.csv")]
    [] none none "ds" rfl⟩

/-- C4: `BivariateDataSet.__init__` raises an `AssertionError` exactly when
`assets_filenames` is not a dictionary or its number of keys differs from
two; for a two-key dictionary construction proceeds past these checks. -/
theorem dataset_init_raises_iff_not_two_asset_dict (assets_filenames : PyObj)
    (model_params : Config) (trd ted : Duration) (name : String) :
    ((∃ msg,
        BivariateDataSet_init assets_filenames model_params trd ted name
          = .error msg) ↔
      (∀ entries, assets_filenames ≠ .dict entries) ∨
      (∃ entries, assets_filenames = .dict entries ∧ entries.length ≠ 2)) ∧
    (∀ entries, assets_filenames = .dict entries → entries.length = 2 →
      ∃ args,
        BivariateDataSet_init assets_filenames model_params trd ted name
          = .ok args) := by
  cases assets_filenames with
  | nonDict d =>
      refine ⟨⟨fun _ => Or.inl fun entries he => PyObj.noConfusion he, ?_⟩, ?_⟩
      · intro _
        exact ⟨_, rfl⟩
      · intro entries he
        exact absurd he (fun he => PyObj.noConfusion he)
  | dict entries =>
      by_cases h : entries.length = 2
      · refine ⟨⟨?_, ?_⟩, ?_⟩
        · intro ⟨msg, hmsg⟩
          rw [BivariateDataSet_init] at hmsg
          simp [h] at hmsg
        · intro hor
          rcases hor with hne | ⟨e, he, hlen⟩
          · exact absurd rfl (hne entries)
          · cases he
            exact absurd h hlen
        · intro e he _
          cases he
          rw [BivariateDataSet_init]
          simp [h]
      · refine ⟨⟨fun _ => Or.inr ⟨entries, rfl, h⟩, ?_⟩, ?_⟩
        · intro _
          refine ⟨"Expected exactly two assets", ?_⟩
          rw [BivariateDataSet_init]
          simp [h]
        · intro e he hlen
          cases he
          exact absurd hlen h

/-- Witness for C4: a non-dictionary argument raises, a two-key dictionary
passes the checks. -/
theorem dataset_init_raises_iff_not_two_asset_dict_witness :
    (∃ msg,
      BivariateDataSet_init (.nonDict "int") [] none none "ds" = .error msg) ∧
    (∃ args,
      BivariateDataSet_init (.dict [("a", "f1.csv"), ("b", "f2.csv")]) [] none none "ds"
        = .ok args) :=
  ⟨(dataset_init_raises_iff_not_two_asset_dict (.nonDict "int") [] none none "ds").1.mpr
      (Or.inl fun _ he => PyObj.noConfusion he),
    (dataset_init_raises_iff_not_two_asset_dict
        (.dict [("a", "f1.csv"), ("b", "f2.csv")]) [] none none "ds").2
      [("a", "f1.csv"), ("b", "f2.csv")] rfl rfl⟩

end BtGym
